import Mathlib

/-!
Verification development for the browser photo-editing front-end
(components/ImageEditor.tsx, services/geminiService.ts).

Numbers that the source manipulates as JS floats are modelled as exact
rationals; machine strings are modelled as Lean strings or lists of
characters.  Each definition is a shallow embedding of the source
function whose name it carries.
-/

namespace PhotoEditor

/-- Crop rectangle, normalized to the image dimensions (source: the
`crop` state, `{ x, y, width, height }`). -/
structure CropRect where
  x : ℚ
  y : ℚ
  width : ℚ
  height : ℚ
deriving DecidableEq, Repr

/-- The nine values of `CropInteraction.type` in the source:
`"move" | "resize-tl" | ... | "resize-l"`. -/
inductive HandleType
  | move | resizeTL | resizeT | resizeTR | resizeR | resizeBR | resizeB | resizeBL | resizeL
deriving DecidableEq, Repr

/-- The literal characters of each interaction-type string. -/
def typeStr : HandleType → List Char
  | .move => ['m', 'o', 'v', 'e']
  | .resizeTL => ['r', 'e', 's', 'i', 'z', 'e', '-', 't', 'l']
  | .resizeT => ['r', 'e', 's', 'i', 'z', 'e', '-', 't']
  | .resizeTR => ['r', 'e', 's', 'i', 'z', 'e', '-', 't', 'r']
  | .resizeR => ['r', 'e', 's', 'i', 'z', 'e', '-', 'r']
  | .resizeBR => ['r', 'e', 's', 'i', 'z', 'e', '-', 'b', 'r']
  | .resizeB => ['r', 'e', 's', 'i', 'z', 'e', '-', 'b']
  | .resizeBL => ['r', 'e', 's', 'i', 'z', 'e', '-', 'b', 'l']
  | .resizeL => ['r', 'e', 's', 'i', 'z', 'e', '-', 'l']

/-- JS `type.includes(c)`: character membership in the type string.
Note that every resize-type string contains the character r, coming
from the word resize itself, so `includesChar t 'r'` is true for all
eight resize handles, exactly as `type.includes('r')` is in the source. -/
def includesChar (t : HandleType) (c : Char) : Bool :=
  (typeStr t).contains c

/-- JS `type.startsWith("resize-")`: true for the eight resize handles,
false for `"move"`. -/
def isResize : HandleType → Bool
  | .move => false
  | _ => true

/-- The four aspect-ratio choices offered by the UI
(`["Free", "1:1", "16:9", "4:3"]`). -/
inductive AspectRatio
  | free | square | wide | standard
deriving DecidableEq, Repr

/-- `Number(parts[0]) / Number(parts[1])` after `aspectRatio.split(':')`;
only evaluated when the ratio is not `"Free"`. -/
def ratioOf : AspectRatio → ℚ
  | .free => 1
  | .square => 1 / 1
  | .wide => 16 / 9
  | .standard => 4 / 3

/-- Edge adjustments of the resize branch (ImageEditor.tsx lines
250-253): the left edge shrinks width and shifts x, the right edge
grows width, and similarly for top and bottom.  Because every resize
type string contains the letter r, the `includesChar t 'r'` case also
fires for every resize handle. -/
def adjustEdges (t : HandleType) (s : CropRect) (dx dy : ℚ) : CropRect :=
  let width := if includesChar t 'l' then s.width - dx else s.width
  let x := if includesChar t 'l' then s.x + dx else s.x
  let width := if includesChar t 'r' then width + dx else width
  let height := if includesChar t 't' then s.height - dy else s.height
  let y := if includesChar t 't' then s.y + dy else s.y
  let height := if includesChar t 'b' then height + dy else height
  ⟨x, y, width, height⟩

/-- The prevent-inversion snap (lines 256-257): a dimension below 0.05
snaps to 0.05, re-anchoring the opposite edge for left/top resizes. -/
def preventInversion (t : HandleType) (startCrop c : CropRect) : CropRect :=
  let width := if c.width < 0.05 then (0.05 : ℚ) else c.width
  let x := if c.width < 0.05 then
    (if includesChar t 'l' then startCrop.x + startCrop.width - 0.05 else startCrop.x) else c.x
  let height := if c.height < 0.05 then (0.05 : ℚ) else c.height
  let y := if c.height < 0.05 then
    (if includesChar t 't' then startCrop.y + startCrop.height - 0.05 else startCrop.y) else c.y
  ⟨x, y, width, height⟩

/-- The aspect-ratio enforcement (lines 262-274): when a fixed ratio is
active, the height (for left/right drags) or the width (otherwise) is
recomputed, then top/left resizes are re-anchored to the opposite
corner using the updated dimensions. -/
def enforceAspect (t : HandleType) (aspect : AspectRatio) (startCrop c : CropRect) : CropRect :=
  if aspect = .free then c
  else
    let ratio := ratioOf aspect
    let width := if includesChar t 'l' || includesChar t 'r' then c.width else c.height * ratio
    let height := if includesChar t 'l' || includesChar t 'r' then c.width / ratio else c.height
    let y := if includesChar t 't' then startCrop.y + startCrop.height - height else c.y
    let x := if includesChar t 'l' then startCrop.x + startCrop.width - width else c.x
    ⟨x, y, width, height⟩

/-- Resize branch of `handleCropMouseMove` (lines 246-274), before the
final boundary checks. -/
def resizeCandidate (t : HandleType) (aspect : AspectRatio) (s : CropRect) (dx dy : ℚ) :
    CropRect :=
  enforceAspect t aspect s (preventInversion t s (adjustEdges t s dx dy))

/-- The pre-clamp rectangle computed by `handleCropMouseMove`: the
resize branch, the move branch (lines 276-279), or the unchanged copy
of the start rectangle. -/
def cropCandidate (t : HandleType) (aspect : AspectRatio) (s : CropRect) (dx dy : ℚ) :
    CropRect :=
  if isResize t then resizeCandidate t aspect s dx dy
  else if t = .move then ⟨s.x + dx, s.y + dy, s.width, s.height⟩
  else s

/-- Boundary checks of `handleCropMouseMove` (lines 282-285), applied
in order: x, then y, then width (using the new x), then height (using
the new y). -/
def clampCrop (c : CropRect) : CropRect :=
  let cx := max 0 (min c.x (1 - c.width))
  let cy := max 0 (min c.y (1 - c.height))
  let cw := min c.width (1 - cx)
  let ch := min c.height (1 - cy)
  ⟨cx, cy, cw, ch⟩

/-- `handleCropMouseMove` (lines 235-288) as a function of the
interaction type, the active aspect ratio, the rectangle recorded at
pointer-down, and the normalized pointer delta `(dx, dy)`. -/
def handleCropMouseMove (t : HandleType) (aspect : AspectRatio) (startCrop : CropRect)
    (dx dy : ℚ) : CropRect :=
  clampCrop (cropCandidate t aspect startCrop dx dy)

/-- One pointer-move event: an interaction type, the aspect ratio
active at that moment, and the pointer delta. -/
abbrev CropEvent := HandleType × AspectRatio × ℚ × ℚ

/-- Processing a sequence of pointer events: each event is handled by
`handleCropMouseMove` from the current rectangle (the rectangle the
pointer-down of the gesture snapshotted). -/
def applyCropEvents (c : CropRect) : List CropEvent → CropRect
  | [] => c
  | e :: rest => applyCropEvents (handleCropMouseMove e.1 e.2.1 c e.2.2.1 e.2.2.2) rest

/-- The containment part of the crop invariant. -/
def cropInBounds (c : CropRect) : Prop :=
  0 ≤ c.x ∧ 0 ≤ c.y ∧ c.x + c.width ≤ 1 ∧ c.y + c.height ≤ 1

/-- The minimum-size part of the crop invariant. -/
def cropMinSize (c : CropRect) : Prop :=
  0.05 ≤ c.width ∧ 0.05 ≤ c.height

/-- The full crop invariant claimed by the specification. -/
def cropInvariant (c : CropRect) : Prop :=
  cropInBounds c ∧ cropMinSize c

instance (c : CropRect) : Decidable (cropInBounds c) := by
  unfold cropInBounds; infer_instance

instance (c : CropRect) : Decidable (cropMinSize c) := by
  unfold cropMinSize; infer_instance

instance (c : CropRect) : Decidable (cropInvariant c) := by
  unfold cropInvariant; infer_instance

lemma clampCrop_inBounds (c : CropRect) : cropInBounds (clampCrop c) := by
  unfold clampCrop cropInBounds
  refine ⟨le_max_left 0 _, le_max_left 0 _, ?_, ?_⟩
  · have h := min_le_right c.width (1 - max 0 (min c.x (1 - c.width)))
    simp only
    linarith
  · have h := min_le_right c.height (1 - max 0 (min c.y (1 - c.height)))
    simp only
    linarith

lemma clampCrop_minSize (c : CropRect) (h : cropMinSize c) :
    cropMinSize (clampCrop c) := by
  obtain ⟨hw, hh⟩ := h
  unfold clampCrop cropMinSize
  constructor
  · simp only
    rcases le_total c.width 1 with h1 | h1
    · have hx : max 0 (min c.x (1 - c.width)) ≤ 1 - c.width := by
        apply max_le (by linarith) (min_le_right _ _)
      calc (0.05 : ℚ) ≤ c.width := hw
        _ = min c.width c.width := (min_self _).symm
        _ ≤ min c.width (1 - max 0 (min c.x (1 - c.width))) := by
            apply min_le_min le_rfl; linarith
    · have hx : max 0 (min c.x (1 - c.width)) = 0 := by
        apply max_eq_left
        calc min c.x (1 - c.width) ≤ 1 - c.width := min_le_right _ _
          _ ≤ 0 := by linarith
      rw [hx]
      have : (0.05 : ℚ) ≤ min c.width (1 - 0) := by
        apply le_min hw; norm_num
      simpa using this
  · simp only
    rcases le_total c.height 1 with h1 | h1
    · have hx : max 0 (min c.y (1 - c.height)) ≤ 1 - c.height := by
        apply max_le (by linarith) (min_le_right _ _)
      calc (0.05 : ℚ) ≤ c.height := hh
        _ = min c.height c.height := (min_self _).symm
        _ ≤ min c.height (1 - max 0 (min c.y (1 - c.height))) := by
            apply min_le_min le_rfl; linarith
    · have hx : max 0 (min c.y (1 - c.height)) = 0 := by
        apply max_eq_left
        calc min c.y (1 - c.height) ≤ 1 - c.height := min_le_right _ _
          _ ≤ 0 := by linarith
      rw [hx]
      have : (0.05 : ℚ) ≤ min c.height (1 - 0) := by
        apply le_min hh; norm_num
      simpa using this

lemma clampCrop_eq_self (c : CropRect) (h : cropInBounds c) : clampCrop c = c := by
  obtain ⟨hx, hy, hxw, hyh⟩ := h
  unfold clampCrop
  have h1 : max 0 (min c.x (1 - c.width)) = c.x := by
    rw [min_eq_left (by linarith), max_eq_right hx]
  have h2 : max 0 (min c.y (1 - c.height)) = c.y := by
    rw [min_eq_left (by linarith), max_eq_right hy]
  simp only [h1, h2]
  have h3 : min c.width (1 - c.x) = c.width := min_eq_left (by linarith)
  have h4 : min c.height (1 - c.y) = c.height := min_eq_left (by linarith)
  rw [h3, h4]

lemma preventInversion_minSize (t : HandleType) (s c : CropRect) :
    cropMinSize (preventInversion t s c) := by
  unfold preventInversion cropMinSize
  constructor
  · simp only
    split_ifs <;> linarith
  · simp only
    split_ifs <;> linarith

lemma enforceAspect_free (t : HandleType) (s c : CropRect) :
    enforceAspect t .free s c = c := rfl

lemma resizeCandidate_free_minSize (t : HandleType) (s : CropRect) (dx dy : ℚ) :
    cropMinSize (resizeCandidate t .free s dx dy) := by
  rw [resizeCandidate, enforceAspect_free]
  exact preventInversion_minSize _ _ _

lemma step_inBounds (t : HandleType) (a : AspectRatio) (s : CropRect) (dx dy : ℚ) :
    cropInBounds (handleCropMouseMove t a s dx dy) :=
  clampCrop_inBounds _

lemma step_free_invariant (t : HandleType) (s : CropRect) (dx dy : ℚ)
    (h : cropInvariant s) : cropInvariant (handleCropMouseMove t .free s dx dy) := by
  refine ⟨clampCrop_inBounds _, clampCrop_minSize _ ?_⟩
  unfold cropCandidate
  split_ifs with h1 h2
  · exact resizeCandidate_free_minSize t s dx dy
  · exact h.2
  · exact h.2

lemma applyCropEvents_inBounds (evs : List CropEvent) (c : CropRect)
    (hc : cropInBounds c) : cropInBounds (applyCropEvents c evs) := by
  induction evs generalizing c with
  | nil => exact hc
  | cons e rest ih => exact ih _ (step_inBounds _ _ _ _ _)

lemma applyCropEvents_free_invariant (evs : List CropEvent) (c : CropRect)
    (hc : cropInvariant c) (hfree : ∀ e ∈ evs, e.2.1 = AspectRatio.free) :
    cropInvariant (applyCropEvents c evs) := by
  induction evs generalizing c with
  | nil => exact hc
  | cons e rest ih =>
      have he : e.2.1 = AspectRatio.free := hfree e (List.mem_cons_self e rest)
      refine ih _ ?_ (fun e he => hfree e (List.mem_cons_of_mem _ he))
      rw [show (handleCropMouseMove e.1 e.2.1 c e.2.2.1 e.2.2.2 =
          handleCropMouseMove e.1 AspectRatio.free c e.2.2.1 e.2.2.2) from by rw [he]]
      exact step_free_invariant _ _ _ _ hc

lemma includesChar_r_of_isResize (t : HandleType) (h : isResize t = true) :
    includesChar t 'r' = true := by
  cases t <;> first | rfl | exact absurd h (by decide)

lemma ratioOf_pos (a : AspectRatio) : 0 < ratioOf a := by
  cases a <;> norm_num [ratioOf]

lemma candidate_x_of_not_l (t : HandleType) (s : CropRect) (dx dy : ℚ)
    (hl : includesChar t 'l' = false) :
    (preventInversion t s (adjustEdges t s dx dy)).x = s.x := by
  simp [preventInversion, adjustEdges, hl]

lemma candidate_y_of_not_t (t : HandleType) (s : CropRect) (dx dy : ℚ)
    (ht : includesChar t 't' = false) :
    (preventInversion t s (adjustEdges t s dx dy)).y = s.y := by
  simp [preventInversion, adjustEdges, ht]

lemma enforceAspect_spec (t : HandleType) (a : AspectRatio) (s c : CropRect)
    (hr : includesChar t 'r' = true) (ha : a ≠ AspectRatio.free) :
    (enforceAspect t a s c).width = c.width ∧
    (enforceAspect t a s c).height = c.width / ratioOf a ∧
    (includesChar t 't' = true →
      (enforceAspect t a s c).y = s.y + s.height - c.width / ratioOf a) ∧
    (includesChar t 't' = false → (enforceAspect t a s c).y = c.y) ∧
    (includesChar t 'l' = true → (enforceAspect t a s c).x = s.x + s.width - c.width) ∧
    (includesChar t 'l' = false → (enforceAspect t a s c).x = c.x) := by
  unfold enforceAspect
  rw [if_neg ha]
  simp only [hr, Bool.or_true, if_true]
  refine ⟨trivial, trivial, ?_, ?_, ?_, ?_⟩ <;> intro h <;> simp [h]

/-- C1 (amended): starting from a rectangle satisfying the invariant,
any sequence of move/resize events keeps the rectangle inside the unit
square (0 ≤ x, 0 ≤ y, x + width ≤ 1, y + height ≤ 1); if every event is
processed with aspect ratio Free, the minimum sizes width ≥ 0.05 and
height ≥ 0.05 are preserved as well. -/
theorem crop_events_preserve_invariant (c : CropRect) (evs : List CropEvent)
    (hc : cropInvariant c) :
    cropInBounds (applyCropEvents c evs) ∧
    ((∀ e ∈ evs, e.2.1 = AspectRatio.free) → cropInvariant (applyCropEvents c evs)) :=
  ⟨applyCropEvents_inBounds evs c hc.1,
   fun hfree => applyCropEvents_free_invariant evs c hc hfree⟩

theorem crop_events_preserve_invariant_witness :
    cropInvariant (⟨1/10, 1/10, 8/10, 8/10⟩ : CropRect) ∧
    cropInBounds (applyCropEvents ⟨1/10, 1/10, 8/10, 8/10⟩
      [(HandleType.move, AspectRatio.free, 3/10, 3/10)]) ∧
    cropInvariant (applyCropEvents ⟨1/10, 1/10, 8/10, 8/10⟩
      [(HandleType.move, AspectRatio.free, 3/10, 3/10)]) := by
  have hinv : cropInvariant (⟨1/10, 1/10, 8/10, 8/10⟩ : CropRect) := by
    norm_num [cropInvariant, cropInBounds, cropMinSize]
  have h := crop_events_preserve_invariant ⟨1/10, 1/10, 8/10, 8/10⟩
    [(HandleType.move, AspectRatio.free, 3/10, 3/10)] hinv
  refine ⟨hinv, h.1, h.2 ?_⟩
  intro e he
  rw [List.mem_singleton] at he
  rw [he]

/-- C1 (counterexample): from the invariant-satisfying start rectangle
(0.1, 0.1, 0.8, 0.8), a single right-handle resize with aspect ratio
16:9 and dx = -0.75 produces height 0.028125 < 0.05: the minimum-size
part of the invariant fails once a fixed aspect ratio is active. -/
theorem crop_minSize_fails_with_fixed_aspect :
    cropInvariant (⟨1/10, 1/10, 8/10, 8/10⟩ : CropRect) ∧
    applyCropEvents ⟨1/10, 1/10, 8/10, 8/10⟩
      [(HandleType.resizeR, AspectRatio.wide, -75/100, 0)] =
      ⟨1/10, 1/10, 1/20, 9/320⟩ ∧
    ¬ cropMinSize (applyCropEvents ⟨1/10, 1/10, 8/10, 8/10⟩
      [(HandleType.resizeR, AspectRatio.wide, -75/100, 0)]) := by
  have hl : includesChar .resizeR 'l' = false := by decide
  have hr : includesChar .resizeR 'r' = true := by decide
  have ht : includesChar .resizeR 't' = false := by decide
  have hb : includesChar .resizeR 'b' = false := by decide
  have heval : applyCropEvents ⟨1/10, 1/10, 8/10, 8/10⟩
      [(HandleType.resizeR, AspectRatio.wide, -75/100, 0)] =
      ⟨1/10, 1/10, 1/20, 9/320⟩ := by
    norm_num [applyCropEvents, handleCropMouseMove, cropCandidate, resizeCandidate,
      adjustEdges, preventInversion, enforceAspect, clampCrop, isResize, ratioOf,
      hl, hr, ht, hb, show AspectRatio.wide ≠ AspectRatio.free from by decide]
  refine ⟨by norm_num [cropInvariant, cropInBounds, cropMinSize], heval, ?_⟩
  rw [heval]
  norm_num [cropMinSize]

/-- C2 (amended): during a resize with a fixed aspect ratio, whenever
the recomputed rectangle already lies inside the unit square (so the
final boundary clamps change nothing), the resulting width equals the
target ratio times the height exactly, the height is positive, and the
corner opposite the dragged handle is anchored: left-edge drags keep
x + width fixed, others keep x fixed, top-edge drags keep y + height
fixed, others keep y fixed. -/
theorem aspect_resize_ratio_exact (t : HandleType) (a : AspectRatio) (s : CropRect)
    (dx dy : ℚ) (ht : isResize t = true) (ha : a ≠ AspectRatio.free)
    (hb : cropInBounds (cropCandidate t a s dx dy)) :
    (handleCropMouseMove t a s dx dy).width =
      ratioOf a * (handleCropMouseMove t a s dx dy).height ∧
    0 < (handleCropMouseMove t a s dx dy).height ∧
    (includesChar t 'l' = true →
      (handleCropMouseMove t a s dx dy).x + (handleCropMouseMove t a s dx dy).width =
        s.x + s.width) ∧
    (includesChar t 'l' = false → (handleCropMouseMove t a s dx dy).x = s.x) ∧
    (includesChar t 't' = true →
      (handleCropMouseMove t a s dx dy).y + (handleCropMouseMove t a s dx dy).height =
        s.y + s.height) ∧
    (includesChar t 't' = false → (handleCropMouseMove t a s dx dy).y = s.y) := by
  have hcand : cropCandidate t a s dx dy = resizeCandidate t a s dx dy := by
    unfold cropCandidate; rw [if_pos ht]
  have hstep : handleCropMouseMove t a s dx dy = resizeCandidate t a s dx dy := by
    unfold handleCropMouseMove
    rw [hcand, clampCrop_eq_self _ (hcand ▸ hb)]
  have hr := includesChar_r_of_isResize t ht
  have hspec := enforceAspect_spec t a s (preventInversion t s (adjustEdges t s dx dy)) hr ha
  have hmin := preventInversion_minSize t s (adjustEdges t s dx dy)
  have hrpos := ratioOf_pos a
  have hwpos : 0 < (preventInversion t s (adjustEdges t s dx dy)).width := by
    have := hmin.1; norm_num at this ⊢; linarith
  rw [hstep]
  unfold resizeCandidate
  refine ⟨?_, ?_, ?_, ?_, ?_, ?_⟩
  · rw [hspec.1, hspec.2.1, mul_comm, div_mul_cancel₀ _ (ne_of_gt hrpos)]
  · rw [hspec.2.1]
    exact div_pos hwpos hrpos
  · intro h
    rw [hspec.2.2.2.2.1 h, hspec.1]
    ring
  · intro h
    rw [hspec.2.2.2.2.2 h, candidate_x_of_not_l t s dx dy h]
  · intro h
    rw [hspec.2.2.1 h, hspec.2.1]
    ring
  · intro h
    rw [hspec.2.2.2.1 h, candidate_y_of_not_t t s dx dy h]

theorem aspect_resize_ratio_exact_witness :
    isResize HandleType.resizeBR = true ∧
    cropInBounds (cropCandidate .resizeBR .square ⟨1/10, 1/10, 1/2, 1/2⟩ (1/10) 0) ∧
    (handleCropMouseMove .resizeBR .square ⟨1/10, 1/10, 1/2, 1/2⟩ (1/10) 0).width =
      ratioOf .square *
        (handleCropMouseMove .resizeBR .square ⟨1/10, 1/10, 1/2, 1/2⟩ (1/10) 0).height ∧
    (handleCropMouseMove .resizeBR .square ⟨1/10, 1/10, 1/2, 1/2⟩ (1/10) 0).x = 1/10 := by
  have hl : includesChar .resizeBR 'l' = false := by decide
  have hr : includesChar .resizeBR 'r' = true := by decide
  have ht : includesChar .resizeBR 't' = false := by decide
  have hb0 : includesChar .resizeBR 'b' = true := by decide
  have hbnd : cropInBounds (cropCandidate .resizeBR .square ⟨1/10, 1/10, 1/2, 1/2⟩ (1/10) 0) := by
    norm_num [cropCandidate, resizeCandidate, adjustEdges, preventInversion, enforceAspect,
      isResize, ratioOf, cropInBounds, hl, hr, ht, hb0,
      show AspectRatio.square ≠ AspectRatio.free from by decide]
  have h := aspect_resize_ratio_exact .resizeBR .square ⟨1/10, 1/10, 1/2, 1/2⟩ (1/10) 0
    (by decide) (by decide) hbnd
  exact ⟨rfl, hbnd, h.1, h.2.2.2.1 hl⟩

/-- C2 (counterexample): a right-handle resize with ratio 16:9 from the
invariant-satisfying rectangle (0, 0.3, 0.5, 0.4) with dx = 0.7 makes
the recomputed width 1.2 overflow the unit square; the boundary clamp
then cuts the width to 1 while the height stays 0.675, so the final
ratio 1/0.675 differs from 16/9. -/
theorem aspect_resize_ratio_counterexample :
    cropInvariant (⟨0, 3/10, 1/2, 2/5⟩ : CropRect) ∧
    handleCropMouseMove .resizeR .wide ⟨0, 3/10, 1/2, 2/5⟩ (7/10) 0 =
      ⟨0, 3/10, 1, 27/40⟩ ∧
    (handleCropMouseMove .resizeR .wide ⟨0, 3/10, 1/2, 2/5⟩ (7/10) 0).width ≠
      ratioOf .wide *
        (handleCropMouseMove .resizeR .wide ⟨0, 3/10, 1/2, 2/5⟩ (7/10) 0).height := by
  have hl : includesChar .resizeR 'l' = false := by decide
  have hr : includesChar .resizeR 'r' = true := by decide
  have ht : includesChar .resizeR 't' = false := by decide
  have hb : includesChar .resizeR 'b' = false := by decide
  have heval : handleCropMouseMove .resizeR .wide ⟨0, 3/10, 1/2, 2/5⟩ (7/10) 0 =
      ⟨0, 3/10, 1, 27/40⟩ := by
    norm_num [handleCropMouseMove, cropCandidate, resizeCandidate, adjustEdges,
      preventInversion, enforceAspect, clampCrop, isResize, ratioOf, hl, hr, ht, hb,
      show AspectRatio.wide ≠ AspectRatio.free from by decide]
  refine ⟨by norm_num [cropInvariant, cropInBounds, cropMinSize], heval, ?_⟩
  rw [heval]
  norm_num [ratioOf]

/-- C10: a move interaction whose start rectangle has width ≤ 1 and
height ≤ 1 leaves width and height exactly unchanged and translates
x and y by the pointer delta, clamped into [0, 1 - width] and
[0, 1 - height]. -/
theorem move_preserves_size (a : AspectRatio) (s : CropRect) (dx dy : ℚ)
    (hw : s.width ≤ 1) (hh : s.height ≤ 1) :
    (handleCropMouseMove .move a s dx dy).width = s.width ∧
    (handleCropMouseMove .move a s dx dy).height = s.height ∧
    (handleCropMouseMove .move a s dx dy).x = max 0 (min (s.x + dx) (1 - s.width)) ∧
    (handleCropMouseMove .move a s dx dy).y = max 0 (min (s.y + dy) (1 - s.height)) := by
  have hx : max 0 (min (s.x + dx) (1 - s.width)) ≤ 1 - s.width :=
    max_le (by linarith) (min_le_right _ _)
  have hy : max 0 (min (s.y + dy) (1 - s.height)) ≤ 1 - s.height :=
    max_le (by linarith) (min_le_right _ _)
  simp only [handleCropMouseMove, cropCandidate, isResize, Bool.false_eq_true, if_false,
    reduceIte, clampCrop]
  exact ⟨min_eq_left (by linarith), min_eq_left (by linarith), trivial, trivial⟩

theorem move_preserves_size_witness :
    (handleCropMouseMove .move .free ⟨1/10, 1/10, 8/10, 8/10⟩ (1/2) (-1/2)).width = 8/10 ∧
    (handleCropMouseMove .move .free ⟨1/10, 1/10, 8/10, 8/10⟩ (1/2) (-1/2)).height = 8/10 := by
  have h := move_preserves_size .free ⟨1/10, 1/10, 8/10, 8/10⟩ (1/2) (-1/2)
    (by norm_num) (by norm_num)
  exact ⟨h.1, h.2.1⟩

/-- `handleRotate` (ImageEditor.tsx line 187):
`setRotation(prev => (prev + degrees + 360) % 360)`.  The JS `%`
operator is the remainder with the sign of the dividend, which is
`Int.tmod`. -/
def handleRotate (rotation degrees : ℤ) : ℤ :=
  (rotation + degrees + 360).tmod 360

/-- C7: from any rotation state in the range [0, 360) kept by the handler,
rotating by 90 degrees four times returns the rotation state to its
starting value. -/
theorem rotate_four_times_identity (r : ℤ) (h0 : 0 ≤ r) (h1 : r < 360) :
    handleRotate (handleRotate (handleRotate (handleRotate r 90) 90) 90) 90 = r := by
  have step : ∀ s : ℤ, 0 ≤ s → handleRotate s 90 = (s + 90 + 360) % 360 := by
    intro s hs
    unfold handleRotate
    rw [Int.tmod_eq_emod (by omega) (by norm_num)]
  have b : ∀ s : ℤ, 0 ≤ (s + 90 + 360) % 360 := by
    intro s; exact Int.emod_nonneg _ (by norm_num)
  rw [step r h0, step _ (b r), step _ (b _), step _ (b _)]
  omega

theorem rotate_four_times_identity_witness :
    handleRotate (handleRotate (handleRotate (handleRotate 270 90) 90) 90) 90 = 270 :=
  rotate_four_times_identity 270 (by norm_num) (by norm_num)

/-- Pan/zoom view state: `scale`, `position.x`, `position.y`. -/
structure ViewState where
  scale : ℚ
  posX : ℚ
  posY : ℚ
deriving DecidableEq, Repr

/-- `handleWheel` (ImageEditor.tsx lines 189-201) with the cursor
already translated to container coordinates
(`mouseX = e.clientX - rect.left`, `mouseY = e.clientY - rect.top`). -/
def handleWheel (v : ViewState) (deltaY mouseX mouseY : ℚ) : ViewState :=
  let newScale := if deltaY < 0 then v.scale * 1.1 else v.scale / 1.1
  let clampedScale := min (max 0.5 newScale) 5
  let newX := mouseX - (mouseX - v.posX) * (clampedScale / v.scale)
  let newY := mouseY - (mouseY - v.posY) * (clampedScale / v.scale)
  ⟨clampedScale, newX, newY⟩

/-- C8: every wheel event clamps the new scale into [0.5, 5], and the
image point that lay under the cursor before the event (the point p
with position + scale * p = cursor) lies under the cursor after it,
exactly, including when the scale was clamped. -/
theorem wheel_clamps_scale_and_fixes_cursor_point (v : ViewState)
    (deltaY mouseX mouseY : ℚ) (hs : v.scale ≠ 0) :
    (1/2 ≤ (handleWheel v deltaY mouseX mouseY).scale ∧
      (handleWheel v deltaY mouseX mouseY).scale ≤ 5) ∧
    ∀ px py : ℚ, v.posX + v.scale * px = mouseX → v.posY + v.scale * py = mouseY →
      (handleWheel v deltaY mouseX mouseY).posX +
        (handleWheel v deltaY mouseX mouseY).scale * px = mouseX ∧
      (handleWheel v deltaY mouseX mouseY).posY +
        (handleWheel v deltaY mouseX mouseY).scale * py = mouseY := by
  unfold handleWheel
  simp only
  refine ⟨⟨?_, ?_⟩, ?_⟩
  · exact le_min (le_trans (by norm_num) (le_max_left _ _)) (by norm_num)
  · exact min_le_right _ _
  · intro px py hpx hpy
    have hx : mouseX - v.posX = v.scale * px := by linarith
    have hy : mouseY - v.posY = v.scale * py := by linarith
    rw [hx, hy]
    constructor
    · field_simp
      ring
    · field_simp
      ring

theorem wheel_clamps_scale_and_fixes_cursor_point_witness :
    (1/2 ≤ (handleWheel ⟨1, 0, 0⟩ (-1) 10 10).scale ∧
      (handleWheel ⟨1, 0, 0⟩ (-1) 10 10).scale ≤ 5) ∧
    (handleWheel ⟨1, 0, 0⟩ (-1) 10 10).posX +
      (handleWheel ⟨1, 0, 0⟩ (-1) 10 10).scale * 10 = 10 := by
  have h := wheel_clamps_scale_and_fixes_cursor_point ⟨1, 0, 0⟩ (-1) 10 10 (by norm_num)
  exact ⟨h.1, (h.2 10 10 (by norm_num) (by norm_num)).1⟩

/-- The working image file as the submission pipeline observes it:
pixel dimensions and file name (the bytes themselves stay abstract). -/
structure SrcImage where
  width : ℕ
  height : ℕ
  name : String
deriving DecidableEq, Repr

/-- Result of a successful outbound call (types.ts `EditedImage`):
a generated image URL plus descriptive text. -/
structure EditedImage where
  imageUrl : String
  text : String
deriving DecidableEq, Repr

/-- The filter presets (ImageEditor.tsx lines 42-48). -/
def filters : List (String × String) :=
  [("None", "none"),
   ("Grayscale", "grayscale(100%)"),
   ("Sepia", "sepia(100%)"),
   ("Vintage", "sepia(60%) contrast(75%) brightness(120%) saturate(120%)"),
   ("Invert", "invert(100%)")]

/-- `filters.find(f => f.name === selectedFilter)?.style`, falling back
to `"none"` (lines 153-154). -/
def filterStyleOf (selectedFilter : String) : String :=
  match filters.find? (fun f => f.1 == selectedFilter) with
  | some f => f.2
  | none => "none"

/-- The composite filter string built in
`applyTransformationsAndGetFile` (lines 123-125): preset, blur and
sharpen-as-contrast joined by spaces, dropping empty and `"none"`
entries. -/
def fullFilterStr (filterStyle : String) (blurValue sharpenValue : ℕ) : String :=
  let blurFilter := if blurValue > 0 then "blur(" ++ toString blurValue ++ "px)" else ""
  let sharpenFilter :=
    if sharpenValue > 0 then "contrast(" ++ toString (100 + sharpenValue) ++ "%)" else ""
  String.intercalate " "
    (([filterStyle, blurFilter, sharpenFilter]).filter (fun f => !(f == "") && !(f == "none")))

/-- The file handed to the outbound adapter: either the original file
object untouched, or the single re-encoded raster produced by
`applyTransformationsAndGetFile`. -/
inductive SentFile
  | unmodified (file : SrcImage)
  | transformed (source : SrcImage) (canvasWidth canvasHeight : ℕ) (filter : String)
      (rotation : ℤ) (name : String) (mime : String)
deriving DecidableEq, Repr

/-- `applyTransformationsAndGetFile` (lines 108-141): one offscreen
raster is produced; the canvas dimensions swap width and height at 90
and 270 degrees, the full filter composite is installed via
`ctx.filter`, the rotation is applied, and the result is re-encoded as
`image/png` under the name `transformed-<original>`. -/
def applyTransformationsAndGetFile (file : SrcImage) (filterStyle : String)
    (rotationAngle : ℤ) (blurValue sharpenValue : ℕ) : SentFile :=
  let isSideways := rotationAngle == 90 || rotationAngle == 270
  SentFile.transformed file
    (if isSideways then file.height else file.width)
    (if isSideways then file.width else file.height)
    (fullFilterStr filterStyle blurValue sharpenValue)
    rotationAngle
    ("transformed-" ++ file.name)
    "image/png"

/-- The component state touched by the submission pipeline. -/
structure EditorState where
  prompt : String
  isLoading : Bool
  error : Option String
  editedImage : Option EditedImage
  selectedFilter : String
  rotation : ℤ
  blur : ℕ
  sharpen : ℕ
  crop : CropRect
  imageFile : SrcImage
deriving Repr

/-- The file `handleSubmit` sends (lines 151-158): the original when no
transform is active, otherwise the baked raster. -/
def imageToSend (s : EditorState) : SentFile :=
  let filterStyle := filterStyleOf s.selectedFilter
  if filterStyle ≠ "none" ∨ s.rotation ≠ 0 ∨ s.blur > 0 ∨ s.sharpen > 0 then
    applyTransformationsAndGetFile s.imageFile filterStyle s.rotation s.blur s.sharpen
  else SentFile.unmodified s.imageFile

/-- JS `prompt.trim()`: the string with leading and trailing
whitespace characters removed, written over the character list so that
it is kernel-computable. -/
def jsTrim (s : String) : String :=
  ⟨((s.data.dropWhile Char.isWhitespace).reverse.dropWhile Char.isWhitespace).reverse⟩

/-- `handleSubmit` (lines 143-164) as a state transition.  The
`outcome` argument is the answer of the environment to the awaited work
inside the `try` (transform bake plus outbound call): `Except.ok` for
a successful result, `Except.error` for any thrown failure.  The
second component records whether the submission proceeded (and with
which file and prompt); `none` means the early `return` fired and
nothing was sent. -/
def handleSubmit (s : EditorState) (outcome : Except String EditedImage) :
    EditorState × Option (SentFile × String) :=
  if jsTrim s.prompt = "" ∨ s.isLoading = true then (s, none)
  else
    match outcome with
    | .ok result =>
        ({ s with isLoading := false, error := none, editedImage := some result },
         some (imageToSend s, s.prompt))
    | .error msg =>
        ({ s with isLoading := false, error := some msg, editedImage := none },
         some (imageToSend s, s.prompt))

/-- C4: while a submission is in flight (`isLoading`) or the prompt is
empty or whitespace-only, `handleSubmit` is a no-op: the state is
unchanged and nothing is sent. -/
theorem submit_noop_when_loading_or_blank (s : EditorState)
    (outcome : Except String EditedImage)
    (h : jsTrim s.prompt = "" ∨ s.isLoading = true) :
    handleSubmit s outcome = (s, none) := by
  unfold handleSubmit
  rw [if_pos h]

theorem submit_noop_when_loading_or_blank_witness :
    handleSubmit ⟨"   ", false, none, some ⟨"u", "t"⟩, "None", 0, 0, 0,
        ⟨1/10, 1/10, 8/10, 8/10⟩, ⟨100, 100, "a.png"⟩⟩ (Except.error "boom") =
      (⟨"   ", false, none, some ⟨"u", "t"⟩, "None", 0, 0, 0,
        ⟨1/10, 1/10, 8/10, 8/10⟩, ⟨100, 100, "a.png"⟩⟩, none) :=
  submit_noop_when_loading_or_blank _ _ (Or.inl (by decide))

/-- C5: when the submission proceeds and the awaited work fails, the
prior edited result is cleared, the thrown message becomes the error,
the loading flag drops, and the working image, rotation, selected
filter, blur, sharpen and crop rectangle are all unchanged. -/
theorem submit_failure_clears_result_sets_error (s : EditorState) (msg : String)
    (h : ¬(jsTrim s.prompt = "" ∨ s.isLoading = true)) :
    (handleSubmit s (Except.error msg)).1.editedImage = none ∧
    (handleSubmit s (Except.error msg)).1.error = some msg ∧
    (handleSubmit s (Except.error msg)).1.isLoading = false ∧
    (handleSubmit s (Except.error msg)).1.imageFile = s.imageFile ∧
    (handleSubmit s (Except.error msg)).1.rotation = s.rotation ∧
    (handleSubmit s (Except.error msg)).1.selectedFilter = s.selectedFilter ∧
    (handleSubmit s (Except.error msg)).1.blur = s.blur ∧
    (handleSubmit s (Except.error msg)).1.sharpen = s.sharpen ∧
    (handleSubmit s (Except.error msg)).1.crop = s.crop := by
  unfold handleSubmit
  rw [if_neg h]
  exact ⟨rfl, rfl, rfl, rfl, rfl, rfl, rfl, rfl, rfl⟩

theorem submit_failure_clears_result_sets_error_witness :
    (handleSubmit ⟨"add a hat", false, none, some ⟨"u", "t"⟩, "Sepia", 90, 2, 0,
        ⟨1/10, 1/10, 8/10, 8/10⟩, ⟨100, 100, "a.png"⟩⟩ (Except.error "boom")).1.editedImage
      = none ∧
    (handleSubmit ⟨"add a hat", false, none, some ⟨"u", "t"⟩, "Sepia", 90, 2, 0,
        ⟨1/10, 1/10, 8/10, 8/10⟩, ⟨100, 100, "a.png"⟩⟩ (Except.error "boom")).1.error
      = some "boom" ∧
    (handleSubmit ⟨"add a hat", false, none, some ⟨"u", "t"⟩, "Sepia", 90, 2, 0,
        ⟨1/10, 1/10, 8/10, 8/10⟩, ⟨100, 100, "a.png"⟩⟩ (Except.error "boom")).1.rotation
      = 90 := by
  have h := submit_failure_clears_result_sets_error
    ⟨"add a hat", false, none, some ⟨"u", "t"⟩, "Sepia", 90, 2, 0,
      ⟨1/10, 1/10, 8/10, 8/10⟩, ⟨100, 100, "a.png"⟩⟩ "boom" (by decide)
  exact ⟨h.1, h.2.1, h.2.2.2.2.1⟩

/-- C6: assuming the selected filter is one of the five preset names,
a submission sends the original file unmodified exactly when no
transform is active (filter None, rotation 0, blur 0, sharpen 0), and
otherwise sends the single raster produced by
`applyTransformationsAndGetFile` from the original with the selected
preset style, rotation, blur and sharpen. -/
theorem imageToSend_branches (s : EditorState)
    (hmem : s.selectedFilter ∈ ["None", "Grayscale", "Sepia", "Vintage", "Invert"]) :
    ((s.selectedFilter = "None" ∧ s.rotation = 0 ∧ s.blur = 0 ∧ s.sharpen = 0) →
      imageToSend s = SentFile.unmodified s.imageFile) ∧
    ((s.selectedFilter ≠ "None" ∨ s.rotation ≠ 0 ∨ s.blur ≠ 0 ∨ s.sharpen ≠ 0) →
      imageToSend s = applyTransformationsAndGetFile s.imageFile
        (filterStyleOf s.selectedFilter) s.rotation s.blur s.sharpen) := by
  constructor
  · rintro ⟨h1, h2, h3, h4⟩
    have hC : ¬(filterStyleOf s.selectedFilter ≠ "none" ∨ s.rotation ≠ 0 ∨
        s.blur > 0 ∨ s.sharpen > 0) := by
      push_neg
      exact ⟨by rw [h1]; decide, h2, by omega, by omega⟩
    unfold imageToSend
    rw [if_neg hC]
  · intro h
    have hC : filterStyleOf s.selectedFilter ≠ "none" ∨ s.rotation ≠ 0 ∨
        s.blur > 0 ∨ s.sharpen > 0 := by
      simp only [List.mem_cons, List.not_mem_nil, or_false] at hmem
      rcases h with h | h | h | h
      · rcases hmem with h1 | h1 | h1 | h1 | h1
        · exact absurd h1 h
        · exact Or.inl (by rw [h1]; decide)
        · exact Or.inl (by rw [h1]; decide)
        · exact Or.inl (by rw [h1]; decide)
        · exact Or.inl (by rw [h1]; decide)
      · exact Or.inr (Or.inl h)
      · exact Or.inr (Or.inr (Or.inl (by omega)))
      · exact Or.inr (Or.inr (Or.inr (by omega)))
    unfold imageToSend
    rw [if_pos hC]

theorem imageToSend_branches_witness :
    imageToSend ⟨"add a hat", false, none, none, "Grayscale", 0, 4, 0,
        ⟨1/10, 1/10, 8/10, 8/10⟩, ⟨100, 80, "a.png"⟩⟩ =
      applyTransformationsAndGetFile ⟨100, 80, "a.png"⟩ (filterStyleOf "Grayscale") 0 4 0 ∧
    imageToSend ⟨"p", false, none, none, "None", 0, 0, 0,
        ⟨1/10, 1/10, 8/10, 8/10⟩, ⟨100, 80, "a.png"⟩⟩ =
      SentFile.unmodified ⟨100, 80, "a.png"⟩ := by
  have h1 := imageToSend_branches
    ⟨"add a hat", false, none, none, "Grayscale", 0, 4, 0,
      ⟨1/10, 1/10, 8/10, 8/10⟩, ⟨100, 80, "a.png"⟩⟩ (by decide)
  have h2 := imageToSend_branches
    ⟨"p", false, none, none, "None", 0, 0, 0,
      ⟨1/10, 1/10, 8/10, 8/10⟩, ⟨100, 80, "a.png"⟩⟩ (by decide)
  exact ⟨h1.2 (Or.inr (Or.inr (Or.inl (by decide)))), h2.1 ⟨rfl, rfl, rfl, rfl⟩⟩

/-- Raster image for the crop-apply pipeline: pixel dimensions plus a
pixel lookup (the color value itself is abstracted as a number). -/
structure RasterImage where
  width : ℕ
  height : ℕ
  pixel : ℕ → ℕ → ℕ

/-- `handleApplyCrop` (ImageEditor.tsx lines 292-319): the normalized
rectangle is converted to source pixel coordinates, the canvas takes
the size of the region (HTML canvas dimension assignment truncates a
fractional number to an integer), the region is copied 1:1 by
`ctx.drawImage(image, cropX, cropY, w, h, 0, 0, w, h)`, and the result
becomes the new working image while `setIsCropping(false)` exits crop
mode.  Returns the new image together with the new `isCropping` flag. -/
def handleApplyCrop (crop : CropRect) (img : RasterImage) : RasterImage × Bool :=
  let cropX : ℚ := crop.x * img.width
  let cropY : ℚ := crop.y * img.height
  let cropWidth : ℚ := crop.width * img.width
  let cropHeight : ℚ := crop.height * img.height
  (⟨(⌊cropWidth⌋).toNat, (⌊cropHeight⌋).toNat,
    fun i j => img.pixel ((⌊cropX⌋).toNat + i) ((⌊cropY⌋).toNat + j)⟩, false)

/-- C3: cropping a 1000 x 800 image to the rectangle with x 0.25,
y 0.25, width 0.5, height 0.5 yields a 500 x 400 image whose pixels
are the source region starting at source pixel (250, 200), and crop
mode is exited. -/
theorem applyCrop_quarter_1000x800 (p : ℕ → ℕ → ℕ) :
    (handleApplyCrop ⟨1/4, 1/4, 1/2, 1/2⟩ ⟨1000, 800, p⟩).1.width = 500 ∧
    (handleApplyCrop ⟨1/4, 1/4, 1/2, 1/2⟩ ⟨1000, 800, p⟩).1.height = 400 ∧
    (∀ i j : ℕ, i < 500 → j < 400 →
      (handleApplyCrop ⟨1/4, 1/4, 1/2, 1/2⟩ ⟨1000, 800, p⟩).1.pixel i j =
        p (250 + i) (200 + j)) ∧
    (handleApplyCrop ⟨1/4, 1/4, 1/2, 1/2⟩ ⟨1000, 800, p⟩).2 = false := by
  refine ⟨?_, ?_, ?_, rfl⟩
  · norm_num [handleApplyCrop]
    rfl
  · norm_num [handleApplyCrop]
    rfl
  · intro i j hi hj
    norm_num [handleApplyCrop]
    rfl

theorem applyCrop_quarter_1000x800_witness :
    (handleApplyCrop ⟨1/4, 1/4, 1/2, 1/2⟩ ⟨1000, 800, fun a b => 2000 * a + b⟩).1.width
      = 500 ∧
    (handleApplyCrop ⟨1/4, 1/4, 1/2, 1/2⟩
        ⟨1000, 800, fun a b => 2000 * a + b⟩).1.pixel 0 0 = 2000 * 250 + 200 := by
  have h := applyCrop_quarter_1000x800 (fun a b => 2000 * a + b)
  exact ⟨h.1, h.2.2.1 0 0 (by norm_num) (by norm_num)⟩

/-- One part of the model response
(`response.candidates[0].content.parts`): either inline image data with
a MIME type, or text. -/
inductive GeminiPart
  | inlineData (data : String) (mimeType : String)
  | textPart (content : String)
deriving DecidableEq, Repr

/-- Truthiness of `process.env.API_KEY`: an unset variable or an empty
string is falsy in JS, so either counts as a missing credential. -/
def keyIsSet : Option String → Bool
  | none => false
  | some s => !(s == "")

/-- `editImageWithGemini` (geminiService.ts lines 18-74).  The
`response` argument is the answer of the environment to the
`generateContent` call: the parts of the first candidate on success,
or a thrown error.  The function returns the result together with a
flag telling whether the outbound request was made.  The key check
happens before anything else; inside the `try`, the parts are folded
into an image URL (initially empty) and a text (initially the
no-text placeholder), a missing image URL becomes a thrown error, and
every caught error gets the `Failed to edit image:` text put in front. -/
def editImageWithGemini (apiKey : Option String) (file : SentFile) (prompt : String)
    (response : Except String (List GeminiPart)) : Except String EditedImage × Bool :=
  if keyIsSet apiKey = false then
    (Except.error "API_KEY environment variable is not set.", false)
  else
    match response with
    | Except.error e => (Except.error ("Failed to edit image: " ++ e), true)
    | Except.ok parts =>
        let acc := parts.foldl
          (fun (acc : String × String) part =>
            match part with
            | GeminiPart.inlineData d m => ("data:" ++ m ++ ";base64," ++ d, acc.2)
            | GeminiPart.textPart c => if c ≠ "" then (acc.1, c) else acc)
          ("", "No text response from model.")
        if acc.1 = "" then
          (Except.error ("Failed to edit image: " ++
            "API did not return an image. The model may have refused the request."), true)
        else (Except.ok ⟨acc.1, acc.2⟩, true)

/-- C9: when the API credential is missing (unset, or empty and hence
falsy), every call to `editImageWithGemini` fails with the credential
error and no outbound request is made. -/
theorem gemini_missing_key_fails_without_request (apiKey : Option String)
    (file : SentFile) (prompt : String) (response : Except String (List GeminiPart))
    (h : keyIsSet apiKey = false) :
    editImageWithGemini apiKey file prompt response =
      (Except.error "API_KEY environment variable is not set.", false) := by
  unfold editImageWithGemini
  rw [if_pos h]

theorem gemini_missing_key_fails_without_request_witness :
    editImageWithGemini none (SentFile.unmodified ⟨100, 80, "a.png"⟩) "add a hat"
        (Except.ok [GeminiPart.inlineData "zzz" "image/png"]) =
      (Except.error "API_KEY environment variable is not set.", false) ∧
    editImageWithGemini (some "") (SentFile.unmodified ⟨100, 80, "a.png"⟩) "add a hat"
        (Except.ok []) =
      (Except.error "API_KEY environment variable is not set.", false) :=
  ⟨gemini_missing_key_fails_without_request _ _ _ _ rfl,
   gemini_missing_key_fails_without_request _ _ _ _ (by decide)⟩

end PhotoEditor
